import Mathlib

/-!
Verification development for the qa-api repository (src/main.py), a Flask
front-end for document-based question answering.  The Python source is
shallowly embedded below: pure helper functions become Lean functions,
external library capabilities (PDF/JSON loaders, the embedding provider's
similarity search) become explicit function parameters, Python-level
failures (TypeError, json.JSONDecodeError) become an explicit error type,
and the request handler becomes a function from a request value to a
record of its observable effects (files saved, result returned).
-/

namespace QaApi

/-- Python runtime errors that the embedded code can raise.
`typeError` models Python's TypeError, `jsonDecodeError` models
`json.JSONDecodeError` (a subclass of ValueError) raised by `json.load`. -/
inductive PyError
  | typeError
  | jsonDecodeError
  deriving Repr, DecidableEq

/-- A langchain `Document` as used by src/main.py: its `page_content`
text, modelled as a list of characters so that the chunking policy can be
reasoned about character by character.  Metadata other than the text plays
no role in any property considered here and is omitted. -/
structure Document where
  page_content : List Char
  deriving Repr, DecidableEq

/-- A chunk produced by the text splitter: a window of a parent document's
text together with the character offset of its first character in the
parent (`start_index`, recorded because src/main.py line 76 passes
`add_start_index=True`). -/
structure Chunk where
  text : List Char
  start_index : Nat
  deriving Repr, DecidableEq

/-- Modelled from the spec: the splitting policy of the external
`RecursiveCharacterTextSplitter(chunk_size, chunk_overlap,
add_start_index=True)` used by `splitDocuments` (src/main.py lines 75-77).
The splitter itself is library code that is not part of this repository,
so it is modelled from the spec's §4.2 splitting policy: walk the text,
emitting successive windows of length `cs` (chunk_size), advancing by
`cs - ov` (chunk_size - chunk_overlap) each step, until the remaining
text is exhausted; the final chunk may be shorter.  `pos` is the start
offset of the current window inside the original document text. -/
def splitTextFrom (cs ov pos : Nat) (t : List Char) : List Chunk :=
  if cs ≤ ov ∨ t.length ≤ cs then [⟨t, pos⟩]
  else ⟨t.take cs, pos⟩ :: splitTextFrom cs ov (pos + (cs - ov)) (t.drop (cs - ov))
termination_by t.length
decreasing_by simp only [List.length_drop]; omega

/-- Models `splitDocuments` (src/main.py lines 75-77): split every
document with chunk_size 1000 and chunk_overlap 200, concatenating the
chunks of all documents in order (no chunk crosses a document boundary). -/
def splitDocuments (docs : List Document) : List Chunk :=
  docs.flatMap (fun d => splitTextFrom 1000 200 0 d.page_content)

/-- Reassembly of a chunk sequence under the chunking policy: keep the
first chunk whole, and for every later chunk remove the overlapping
prefix (the first `ov` characters, which repeat the tail of the previous
chunk) before concatenating. -/
def reconstruct (ov : Nat) : List Chunk → List Char
  | [] => []
  | c :: rest => c.text ++ (rest.map (fun k => k.text.drop ov)).flatten

/-- Helper for the round-trip property: dropping the first `ov`
characters of every chunk (the first included) and concatenating yields
the original text with its first `ov` characters removed. -/
theorem splitTextFrom_drop_flatten (cs ov : Nat) (hov : ov < cs) :
    ∀ n t pos, t.length ≤ n →
      ((splitTextFrom cs ov pos t).map (fun k => k.text.drop ov)).flatten = t.drop ov := by
  intro n
  induction n with
  | zero =>
    intro t pos h
    have ht : t.length ≤ cs := le_trans h (Nat.zero_le cs)
    rw [splitTextFrom, if_pos (Or.inr ht)]
    simp
  | succ n ih =>
    intro t pos h
    by_cases hc : t.length ≤ cs
    · rw [splitTextFrom, if_pos (Or.inr hc)]
      simp
    · rw [splitTextFrom, if_neg (by omega)]
      simp only [List.map_cons, List.flatten_cons]
      rw [ih (t.drop (cs - ov)) (pos + (cs - ov)) (by simp only [List.length_drop]; omega)]
      rw [List.drop_take cs ov t, List.drop_drop ov (cs - ov) t]
      have hcs : cs - ov + ov = cs := by omega
      rw [hcs, show t.drop cs = (t.drop ov).drop (cs - ov) by rw [List.drop_drop]; congr 1; omega]
      exact List.take_append_drop (cs - ov) (t.drop ov)

/-- C5: for all chunk_size > chunk_overlap ≥ 0 and any document text,
concatenating the texts of the chunks produced by the chunking policy,
with the overlapping prefixes removed, reconstructs the original document
text exactly (round-trip of the chunking policy). -/
theorem chunk_round_trip (cs ov : Nat) (t : List Char) (hov : ov < cs) :
    reconstruct ov (splitTextFrom cs ov 0 t) = t := by
  by_cases hc : t.length ≤ cs
  · rw [splitTextFrom, if_pos (Or.inr hc)]
    simp [reconstruct]
  · rw [splitTextFrom, if_neg (by omega)]
    simp only [reconstruct]
    rw [splitTextFrom_drop_flatten cs ov hov (t.drop (cs - ov)).length _ _ (le_refl _)]
    rw [List.drop_drop ov (cs - ov) t, show cs - ov + ov = cs by omega]
    exact List.take_append_drop cs t

/-- Models `loadPdf` (src/main.py lines 84-88): the body constructs a
`BasePDFLoader` for the file and computes `docs = loader.load()`, but the
function has no `return` statement, so like every Python function that
falls off the end of its body it returns `None` (modelled as `none`).
The external loader's `load` behaviour is the `loader_load` parameter. -/
def loadPdf (loader_load : String → List Document) (filename : String) :
    Option (List Document) :=
  let docs := loader_load filename
  none

/-- Models `loadJson` (src/main.py lines 90-95): identical shape to
`loadPdf` — it constructs a `JSONLoader` with `jq_schema '.content'`,
computes `docs = loader.load()`, and has no `return` statement, so it
returns `None`. -/
def loadJson (loader_load : String → List Document) (filename : String) :
    Option (List Document) :=
  let docs := loader_load filename
  none

/-- Models the call `ts.split_documents(docs)` inside `splitDocuments`
(src/main.py line 77) as invoked from the handler: `split_documents`
iterates over its argument, so passing `None` (which is what `loadPdf`
and `loadJson` produce) raises `TypeError: NoneType is not iterable`;
an actual document list is split by the chunking policy. -/
def splitDocumentsPy (docs : Option (List Document)) : Except PyError (List Chunk) :=
  match docs with
  | none => .error .typeError
  | some ds => .ok (splitDocuments ds)

/-- Python keyword-argument binding: calling a function whose declared
keyword parameters are `params` with keyword arguments `kwargs` raises
`TypeError: got an unexpected keyword argument` when some keyword matches
no declared parameter; otherwise each parameter reads its value from the
keyword list. -/
def bindKwargs (params : List String) (kwargs : List (String × String)) :
    Except PyError (List (String × String)) :=
  if kwargs.all (fun kv => params.contains kv.1) then .ok kwargs
  else .error .typeError

/-- The langchain `Chroma` vector store as visible to this program: the
indexed chunks plus the persistence directory it was configured with
(`none` when no `persist_directory` keyword reached it). -/
structure Chroma where
  docs : List Chunk
  persist_directory : Option String
  deriving Repr, DecidableEq

/-- Modelled from the library interface of
`Chroma.from_documents(documents=..., embedding=..., **kwargs)`: its
optional keyword parameters relevant here include `persist_directory`
(plus `ids`, `collection_name`, `client_settings`, `client`,
`collection_metadata`); any other keyword is unexpected and raises
`TypeError`.  When the call binds, the store's persistence directory is
whatever the `persist_directory` keyword supplied (`none` if absent). -/
def Chroma_from_documents (documents : List Chunk)
    (kwargs : List (String × String)) : Except PyError Chroma := do
  let bound ← bindKwargs
    ["ids", "collection_name", "persist_directory", "client_settings",
     "client", "collection_metadata"] kwargs
  .ok ⟨documents, bound.lookup "persist_directory"⟩

/-- Models `buildVectorStore` (src/main.py lines 79-82).  Note the call
site passes the keyword `persist_director=persist_directory` — the
keyword name is misspelled (the parameter is `persist_directory`), so the
intended persistence location never reaches the library. -/
def buildVectorStore (split_docs : List Chunk) (persist_directory : String) :
    Except PyError Chroma :=
  Chroma_from_documents split_docs [("persist_director", persist_directory)]

/-- A Python value as it appears to `str.join`: either a string or a
langchain `Document` object. -/
inductive PyObj
  | ofStr (s : String)
  | ofDoc (d : Document)
  deriving Repr, DecidableEq

/-- Is this Python value a string? -/
def PyObj.isPyStr : PyObj → Bool
  | .ofStr _ => true
  | .ofDoc _ => false

/-- The string carried by a Python value, if it is one. -/
def PyObj.getPyStr : PyObj → Option String
  | .ofStr s => some s
  | .ofDoc _ => none

/-- Python's `sep.join(items)`: succeeds with the items interleaved with
the separator when every item is a `str`, and raises `TypeError` when any
item is not a string (for instance a `Document` object). -/
def pyJoin (sep : String) (items : List PyObj) : Except PyError String :=
  if items.all PyObj.isPyStr then
    .ok (String.intercalate sep (items.filterMap PyObj.getPyStr))
  else .error .typeError

/-- Python dict insertion `rs[q] = a` on a dict represented as an
insertion-ordered association list: an existing key keeps its position and
gets the new value, a new key is appended. -/
def dictInsert (rs : List (String × String)) (k v : String) :
    List (String × String) :=
  if rs.any (fun p => p.1 = k) then
    rs.map (fun p => if p.1 = k then (k, v) else p)
  else rs ++ [(k, v)]

/-- Models `genResponses` (src/main.py lines 103-109): for each question
`q` in order, `ans = vs.similarity_search(q)` (the external provider's
similarity query, the `search` parameter, returning `Document` objects)
and `rs[q] = ' '.join(ans)`.  The join is applied to the `Document`
objects themselves, not to their texts. -/
def genResponses (search : String → List Document) (qs : List String) :
    Except PyError (List (String × String)) :=
  qs.foldlM (fun rs q => do
    let ans := search q
    let a ← pyJoin " " (ans.map PyObj.ofDoc)
    pure (dictInsert rs q a)) []

/-- Models the call `json.dump(rs)` (src/main.py line 70): `json.dump`
has signature `json.dump(obj, fp, ...)`; the call supplies only `obj`, so
Python raises `TypeError: dump() missing 1 required positional argument`
before any serialization happens (serializing to a string would be
`json.dumps`). -/
def jsonDump (rs : List (String × String)) : Except PyError String :=
  .error .typeError

/-- Models the call `render_template("response.html", rs_json)`
(src/main.py line 72): Flask's `render_template(template_name, **context)`
accepts exactly one positional argument, so passing the rendered JSON as a
second positional argument raises `TypeError`. -/
def renderTemplatePositional (template : String) (arg : String) :
    Except PyError String :=
  .error .typeError

/-- A parsed JSON value, as produced by Python's `json.load`.  Numbers
are modelled as integers: none of the inputs considered in this
development carries a fraction or exponent, and floating point is out of
scope. -/
inductive Json
  | null
  | bool (b : Bool)
  | num (n : Int)
  | str (s : String)
  | arr (elems : List Json)
  | obj (fields : List (String × Json))

/-- The left curly-bracket character (written by code point so that it
never occurs literally in this file). -/
def lcurly : Char := Char.ofNat 123

/-- The right curly-bracket character, by code point. -/
def rcurly : Char := Char.ofNat 125

/-- JSON insignificant whitespace: space, tab, line feed, carriage
return. -/
def isJsonWs (c : Char) : Bool :=
  c = ' ' || c = '\t' || c = '\n' || c = '\r'

/-- Skip leading JSON whitespace. -/
def skipWs : List Char → List Char
  | [] => []
  | c :: rest => if isJsonWs c then skipWs rest else c :: rest

/-- Resolution of a JSON string escape `\\c` for the escapes used by
`json.load` (`\\u` hexadecimal escapes are left unsupported here: no
input considered in this development contains one). -/
def escChar (c : Char) : Option Char :=
  if c = '\"' then some '\"'
  else if c = '\\' then some '\\'
  else if c = '/' then some '/'
  else if c = 'n' then some '\n'
  else if c = 't' then some '\t'
  else if c = 'r' then some '\r'
  else if c = 'b' then some (Char.ofNat 8)
  else if c = 'f' then some (Char.ofNat 12)
  else none

/-- Parse the body of a JSON string after its opening quote, returning
the decoded string and the input remaining after the closing quote. -/
def parseStrBody : List Char → Option (String × List Char)
  | [] => none
  | c :: rest =>
    if c = '\"' then some ("", rest)
    else if c = '\\' then
      match rest with
      | [] => none
      | e :: rest2 =>
        match escChar e with
        | none => none
        | some ec =>
          match parseStrBody rest2 with
          | none => none
          | some (s, r) => some (⟨ec :: s.data⟩, r)
    else
      match parseStrBody rest with
      | none => none
      | some (s, r) => some (⟨c :: s.data⟩, r)

/-- Split a maximal run of leading decimal digits from the input. -/
def parseDigits : List Char → List Char × List Char
  | [] => ([], [])
  | c :: rest =>
    if c.isDigit then
      let (ds, r) := parseDigits rest
      (c :: ds, r)
    else ([], c :: rest)

/-- Numeric value of a list of decimal digit characters. -/
def digitsVal (ds : List Char) : Nat :=
  ds.foldl (fun acc c => acc * 10 + (c.toNat - 48)) 0

/-- Parse a JSON integer (optional minus sign followed by digits). -/
def parseNum : List Char → Option (Json × List Char)
  | '-' :: rest =>
    match h : parseDigits rest with
    | ([], _) => none
    | (ds, r) => some (.num (-(digitsVal ds : Int)), r)
  | cs =>
    match h : parseDigits cs with
    | ([], _) => none
    | (ds, r) => some (.num (digitsVal ds), r)

mutual

/-- Parse one JSON value (fuel-indexed recursive-descent parser modelling
Python's `json.loads` grammar, restricted to integer numerals and
non-`\\u` string escapes, which covers every input considered here). -/
def parseVal : Nat → List Char → Option (Json × List Char)
  | 0, _ => none
  | Nat.succ fuel, cs =>
    match skipWs cs with
    | 'n' :: 'u' :: 'l' :: 'l' :: r => some (.null, r)
    | 't' :: 'r' :: 'u' :: 'e' :: r => some (.bool true, r)
    | 'f' :: 'a' :: 'l' :: 's' :: 'e' :: r => some (.bool false, r)
    | '\"' :: r =>
      match parseStrBody r with
      | none => none
      | some (s, r2) => some (.str s, r2)
    | '[' :: r =>
      match skipWs r with
      | ']' :: r2 => some (.arr [], r2)
      | r2 =>
        match parseElems fuel r2 with
        | none => none
        | some (vs, r3) => some (.arr vs, r3)
    | c :: r =>
      if c = lcurly then
        match skipWs r with
        | c2 :: r2 =>
          if c2 = rcurly then some (.obj [], r2)
          else
            match parseFields fuel (c2 :: r2) with
            | none => none
            | some (fs, r3) => some (.obj fs, r3)
        | [] => none
      else parseNum (c :: r)
    | [] => none

/-- Parse the elements of a non-empty JSON array up to and including the
closing square bracket. -/
def parseElems : Nat → List Char → Option (List Json × List Char)
  | 0, _ => none
  | Nat.succ fuel, cs =>
    match parseVal fuel cs with
    | none => none
    | some (v, r) =>
      match skipWs r with
      | ',' :: r2 =>
        match parseElems fuel r2 with
        | none => none
        | some (vs, r3) => some (v :: vs, r3)
      | ']' :: r2 => some ([v], r2)
      | _ => none

/-- Parse the fields of a non-empty JSON object up to and including the
closing curly bracket. -/
def parseFields : Nat → List Char → Option (List (String × Json) × List Char)
  | 0, _ => none
  | Nat.succ fuel, cs =>
    match skipWs cs with
    | '\"' :: r =>
      match parseStrBody r with
      | none => none
      | some (k, r2) =>
        match skipWs r2 with
        | ':' :: r3 =>
          match parseVal fuel r3 with
          | none => none
          | some (v, r4) =>
            match skipWs r4 with
            | ',' :: r5 =>
              match parseFields fuel r5 with
              | none => none
              | some (fs, r6) => some ((k, v) :: fs, r6)
            | c :: r5 => if c = rcurly then some ([(k, v)], r5) else none
            | [] => none
        | _ => none
    | _ => none

end

/-- Models Python's `json.load` on the full content of a file: parse one
JSON value and require only whitespace after it; `none` is a
`json.JSONDecodeError`.  The fuel bound exceeds the number of parsing
steps any input of this length can need. -/
def parseJson (s : String) : Option Json :=
  match parseVal (2 * s.data.length + 8) s.data with
  | none => none
  | some (v, r) =>
    match skipWs r with
    | [] => some v
    | _ => none

/-- Models `loadQuestions` (src/main.py lines 97-101): open the file,
`qs = json.load(qs_file)`, `return qs`.  `json.load` raises
`JSONDecodeError` on malformed input; whatever value it parses is
returned unchanged, with no validation of its shape.  The argument is the
content of the file at the given path (file opening is modelled by the
caller's storage lookup). -/
def loadQuestions (fileContent : String) : Except PyError Json :=
  match parseJson fileContent with
  | some v => .ok v
  | none => .error .jsonDecodeError

/-- Is this JSON value a list of strings? -/
def isStrList (j : Json) : Bool :=
  match j with
  | .arr xs => xs.all (fun x => match x with | .str _ => true | _ => false)
  | _ => false

/-- The strings of a JSON array of strings, if the value is one. -/
def asStrList (j : Json) : Option (List String) :=
  match j with
  | .arr xs => xs.mapM (fun x => match x with | .str s => some s | _ => none)
  | _ => none

/-- An uploaded file in a multipart request: the client-supplied filename
and the file's bytes (as a string). -/
structure FilePart where
  filename : String
  content : String
  deriving Repr, DecidableEq

/-- A POST request to /api/load_document: the uploaded files keyed by
form field name (`request.files`) and the plain form fields
(`request.form`). -/
structure Request where
  files : List (String × FilePart)
  form : List (String × String)
  deriving Repr, DecidableEq

/-- What the handler hands back to Flask. -/
inductive HandlerResult
  | redirect (flash : String)
  | badRequest
  | pipelineError (e : PyError)
  | page (body : String)
  deriving Repr, DecidableEq

/-- The observable outcome of one call to the handler: the local-storage
writes it performed, in order (filename, content) with last write winning
on a name collision, whether the vector-store build (src/main.py line 63)
was reached, and the response.  `badRequest` is Flask's HTTP 400 response
to the `BadRequestKeyError` (a `KeyError` subclass) raised by indexing a
missing form key; `pipelineError` is the uncaught Python exception
escaping the handler (an HTTP 500). -/
structure HandlerOut where
  saved : List (String × String)
  buildCalled : Bool
  result : HandlerResult
  deriving Repr, DecidableEq

/-- Models src/main.py lines 61-72, the pipeline run after the uploaded
files are saved and the corpus is loaded: `splitDocuments`, then
`buildVectorStore` (with its default `./chroma_db`), then `loadQuestions`
on the saved questions file's content, then `genResponses`, then
`json.dump` and `render_template`.  Returns whether the vector-store
build was invoked, together with the pipeline's value or the first
uncaught Python error.  The question value parsed from JSON is bridged to
`genResponses`'s declared `list[str]` argument by `asStrList`; a shape
that is not a list of strings is modelled as `TypeError` (this point is
unreachable from the handler: `splitDocumentsPy` is always given `None`
and `buildVectorStore` always raises, see the theorems below). -/
def runPipeline (search : String → List Document)
    (docs : Option (List Document)) (qContent : String) :
    Bool × Except PyError String :=
  match splitDocumentsPy docs with
  | .error e => (false, .error e)
  | .ok split_docs =>
    match buildVectorStore split_docs "./chroma_db" with
    | .error e => (true, .error e)
    | .ok _vector_store =>
      match loadQuestions qContent with
      | .error e => (true, .error e)
      | .ok qsJson =>
        match asStrList qsJson with
        | none => (true, .error .typeError)
        | some qs =>
          match genResponses search qs with
          | .error e => (true, .error e)
          | .ok rs =>
            match jsonDump rs with
            | .error e => (true, .error e)
            | .ok rs_json =>
              match renderTemplatePositional "response.html" rs_json with
              | .error e => (true, .error e)
              | .ok body => (true, .ok body)

/-- Package a pipeline outcome as the handler's observable output. -/
def finishPipeline (saved : List (String × String))
    (out : Bool × Except PyError String) : HandlerOut :=
  match out.2 with
  | .error e => ⟨saved, out.1, .pipelineError e⟩
  | .ok body => ⟨saved, out.1, .page body⟩

/-- Models the handler `loadDocument` (src/main.py lines 35-72).  In
source order: if `corpus` is not in `request.files`, flash and redirect;
if `questions` is not in `request.files`, flash and redirect; read
`request.form['type']` (a missing key raises `BadRequestKeyError`, an
HTTP 400, before anything is saved); save both files to local storage
under their client-supplied filenames; dispatch on the type — `json` and
`pdf` run the pipeline on the corpus loader's output, anything else
flashes `Invalid type!` and redirects (after the saves).  The external
capabilities are parameters: `jsonLoad`/`pdfLoad` are the library
loaders' `load`, `search` is the vector store's similarity query. -/
def loadDocument (jsonLoad pdfLoad : String → List Document)
    (search : String → List Document) (req : Request) : HandlerOut :=
  match req.files.lookup "corpus" with
  | none => ⟨[], false, .redirect "No corpus file found!"⟩
  | some corpus =>
    match req.files.lookup "questions" with
    | none => ⟨[], false, .redirect "No question file found!"⟩
    | some questions =>
      match req.form.lookup "type" with
      | none => ⟨[], false, .badRequest⟩
      | some op =>
        let saved := [(corpus.filename, corpus.content),
                      (questions.filename, questions.content)]
        if op = "json" then
          finishPipeline saved
            (runPipeline search (loadJson jsonLoad corpus.filename) questions.content)
        else if op = "pdf" then
          finishPipeline saved
            (runPipeline search (loadPdf pdfLoad corpus.filename) questions.content)
        else ⟨saved, false, .redirect "Invalid type!"⟩

/-!
Concrete sample inputs used by the closed evaluation theorems and
witnesses below.  The three function parameters stand for the external
capabilities: the PDF and JSON loaders' `load`, and the embedding
provider's similarity query, each returning a well-formed document. -/

/-- A sample document returned by the stubbed external capabilities. -/
def sampleDoc : Document := ⟨"Paris is the capital of France.".data⟩

/-- Stub of the JSONLoader's `load`. -/
def sampleJsonLoad : String → List Document := fun _ => [sampleDoc]

/-- Stub of the BasePDFLoader's `load`. -/
def samplePdfLoad : String → List Document := fun _ => [sampleDoc]

/-- Stub of the vector store's `similarity_search`. -/
def sampleSearch : String → List Document := fun _ => [sampleDoc]

/-- A well-formed upload request: corpus and questions files present,
type pdf. -/
def reqValid : Request :=
  ⟨[("corpus", ⟨"c.pdf", "PDFDATA"⟩), ("questions", ⟨"qs.json", "[\"a?\"]"⟩)],
   [("type", "pdf")]⟩

/-- An upload request whose `type` field is `xml`. -/
def reqXml : Request :=
  ⟨[("corpus", ⟨"c.xml", "XMLDATA"⟩), ("questions", ⟨"qs.json", "[\"a?\"]"⟩)],
   [("type", "xml")]⟩

/-- An upload request with a corpus file but no questions file. -/
def reqNoQuestions : Request :=
  ⟨[("corpus", ⟨"c.pdf", "PDFDATA"⟩)], [("type", "pdf")]⟩

/-- An upload request with both files but no `type` form field at all. -/
def reqNoType : Request :=
  ⟨[("corpus", ⟨"c.pdf", "PDFDATA"⟩), ("questions", ⟨"qs.json", "[\"a?\"]"⟩)], []⟩

/-- Witness for C5 at chunk_size 3, chunk_overlap 1 on the text
`abcdef`. -/
theorem chunk_round_trip_witness :
    1 < 3 ∧ reconstruct 1 (splitTextFrom 3 1 0 "abcdef".data) = "abcdef".data :=
  ⟨by norm_num, chunk_round_trip 3 1 "abcdef".data (by norm_num)⟩

/-- C7: every document whose text is strictly shorter than the
configured chunk_size 1000 is split into exactly one chunk whose text is
the whole document text and whose start_index is 0. -/
theorem splitDocuments_short_doc_single_chunk (d : Document)
    (h : d.page_content.length < 1000) :
    splitDocuments [d] = [⟨d.page_content, 0⟩] := by
  unfold splitDocuments
  simp only [List.flatMap_cons, List.flatMap_nil, List.append_nil]
  rw [splitTextFrom, if_pos (Or.inr (le_of_lt h))]

/-- Witness for C7 on the two-character document `hi`. -/
theorem splitDocuments_short_doc_single_chunk_witness :
    ("hi".data : List Char).length < 1000 ∧
      splitDocuments [⟨"hi".data⟩] = [⟨"hi".data, 0⟩] :=
  ⟨by decide, splitDocuments_short_doc_single_chunk ⟨"hi".data⟩ (by decide)⟩

/-- C4 (code evaluation): for every underlying loader behaviour and every
file path, `loadPdf` and `loadJson` return `None` — the documents
computed by `loader.load()` are dropped because neither function has a
`return` statement — contradicting their declared `-> list[Document]`
contract. -/
theorem loadPdf_loadJson_return_none (load : String → List Document)
    (filename : String) :
    loadPdf load filename = none ∧ loadJson load filename = none :=
  ⟨rfl, rfl⟩

/-- C9 (code evaluation): for every chunk list and every requested
persistence directory, `buildVectorStore` raises `TypeError` — the call
site passes the misspelled keyword `persist_director`, which matches no
parameter of `Chroma.from_documents` — so no durable index state is ever
written to the configured directory. -/
theorem buildVectorStore_never_persists (split_docs : List Chunk)
    (dir : String) :
    buildVectorStore split_docs dir = .error .typeError :=
  rfl

/-- C2 (code evaluation): whenever the similarity query returns at least
one chunk for the first question, `genResponses` raises `TypeError`
instead of producing any answer, because `' '.join(ans)` is applied to
the `Document` objects themselves rather than to their texts. -/
theorem genResponses_nonempty_search_raises
    (search : String → List Document) (q : String) (qs : List String)
    (h : search q ≠ []) :
    genResponses search (q :: qs) = .error .typeError := by
  obtain ⟨d, ds, hd⟩ : ∃ d ds, search q = d :: ds := by
    cases hsq : search q with
    | nil => exact absurd hsq h
    | cons a l => exact ⟨a, l, rfl⟩
  simp only [genResponses, List.foldlM, hd, pyJoin, PyObj.isPyStr,
    List.map_cons, List.all_cons, Bool.false_and]
  rfl

/-- Witness for C2: a store returning one document for question `q1`. -/
theorem genResponses_nonempty_search_raises_witness :
    sampleSearch "q1" ≠ [] ∧
      genResponses sampleSearch ["q1"] = .error .typeError :=
  ⟨by decide, genResponses_nonempty_search_raises sampleSearch "q1" [] (by decide)⟩

/-- C8: when the corpus file is present but the questions file is
missing, the handler redirects with the flash message `No question file
found!`, saves nothing, and never reaches the vector-store build. -/
theorem loadDocument_missing_questions_redirects
    (jsonLoad pdfLoad search : String → List Document) (req : Request)
    (c : FilePart)
    (hc : req.files.lookup "corpus" = some c)
    (hq : req.files.lookup "questions" = none) :
    loadDocument jsonLoad pdfLoad search req =
      ⟨[], false, .redirect "No question file found!"⟩ := by
  unfold loadDocument
  rw [hc, hq]

/-- Witness for C8 at a concrete request with only a corpus file. -/
theorem loadDocument_missing_questions_redirects_witness :
    loadDocument sampleJsonLoad samplePdfLoad sampleSearch reqNoQuestions =
      ⟨[], false, .redirect "No question file found!"⟩ :=
  loadDocument_missing_questions_redirects sampleJsonLoad samplePdfLoad
    sampleSearch reqNoQuestions ⟨"c.pdf", "PDFDATA"⟩ rfl rfl

/-- C1 (code evaluation): for every request with both files present and
`type` equal to `json` or `pdf`, the handler ends in an uncaught
`TypeError` — `loadJson`/`loadPdf` return `None`, which
`split_documents` cannot iterate — so the results page with the
question-to-answer JSON is never rendered. -/
theorem loadDocument_valid_type_never_renders
    (jsonLoad pdfLoad search : String → List Document) (req : Request)
    (c q : FilePart)
    (hc : req.files.lookup "corpus" = some c)
    (hq : req.files.lookup "questions" = some q)
    (hop : req.form.lookup "type" = some "json" ∨
           req.form.lookup "type" = some "pdf") :
    (loadDocument jsonLoad pdfLoad search req).result =
      .pipelineError .typeError := by
  unfold loadDocument
  rw [hc, hq]
  rcases hop with h | h <;> rw [h] <;>
    simp [finishPipeline, runPipeline, splitDocumentsPy, loadJson, loadPdf]

/-- Witness for C1 at a concrete well-formed pdf upload. -/
theorem loadDocument_valid_type_never_renders_witness :
    (loadDocument sampleJsonLoad samplePdfLoad sampleSearch reqValid).result =
      .pipelineError .typeError :=
  loadDocument_valid_type_never_renders sampleJsonLoad samplePdfLoad
    sampleSearch reqValid ⟨"c.pdf", "PDFDATA"⟩ ⟨"qs.json", "[\"a?\"]"⟩
    rfl rfl (Or.inr rfl)

/-- C3 counterexample: on a request with `type=xml` the handler does
redirect with the flash `Invalid type!`, but only after both uploaded
files have been saved — the list of files written to local storage is not
empty, refuting the claim that no file save is performed. -/
theorem loadDocument_xml_saves_before_redirect :
    (loadDocument sampleJsonLoad samplePdfLoad sampleSearch reqXml).result =
      .redirect "Invalid type!" ∧
    (loadDocument sampleJsonLoad samplePdfLoad sampleSearch reqXml).saved ≠ [] :=
  ⟨rfl, by decide⟩

/-- C3 as amended: when both files are present and the `type` field is
neither `pdf` nor `json`, the handler returns a redirect with the flash
message `Invalid type!`, but both uploaded files have already been saved
to local storage (the saves precede the type dispatch). -/
theorem loadDocument_invalid_type_redirects_after_save
    (jsonLoad pdfLoad search : String → List Document) (req : Request)
    (c q : FilePart) (op : String)
    (hc : req.files.lookup "corpus" = some c)
    (hq : req.files.lookup "questions" = some q)
    (hop : req.form.lookup "type" = some op)
    (hj : op ≠ "json") (hp : op ≠ "pdf") :
    loadDocument jsonLoad pdfLoad search req =
      ⟨[(c.filename, c.content), (q.filename, q.content)], false,
        .redirect "Invalid type!"⟩ := by
  unfold loadDocument
  rw [hc, hq, hop]
  simp [hj, hp]

/-- Witness for the amended C3 at a concrete `type=xml` request. -/
theorem loadDocument_invalid_type_redirects_after_save_witness :
    loadDocument sampleJsonLoad samplePdfLoad sampleSearch reqXml =
      ⟨[("c.xml", "XMLDATA"), ("qs.json", "[\"a?\"]")], false,
        .redirect "Invalid type!"⟩ :=
  loadDocument_invalid_type_redirects_after_save sampleJsonLoad samplePdfLoad
    sampleSearch reqXml ⟨"c.xml", "XMLDATA"⟩ ⟨"qs.json", "[\"a?\"]"⟩ "xml"
    rfl rfl rfl (by decide) (by decide)

/-- C10 counterexample: on a request with both files present but no
`type` form field, the handler answers with the HTTP 400 produced by the
`BadRequestKeyError` of `request.form['type']`, and at that point nothing
has been saved to local storage — refuting the claim that the error
occurs only after both files were saved. -/
theorem loadDocument_missing_type_no_save :
    (loadDocument sampleJsonLoad samplePdfLoad sampleSearch reqNoType).result =
      .badRequest ∧
    (loadDocument sampleJsonLoad samplePdfLoad sampleSearch reqNoType).saved =
      [] :=
  ⟨rfl, rfl⟩

/-- C10 as amended: when both files are present but the multipart form
has no `type` field, the handler does not flash-redirect; it raises a
key-lookup error surfacing as HTTP 400, and this happens before any file
is saved (the `request.form['type']` lookup precedes the save
statements). -/
theorem loadDocument_missing_type_badRequest_before_save
    (jsonLoad pdfLoad search : String → List Document) (req : Request)
    (c q : FilePart)
    (hc : req.files.lookup "corpus" = some c)
    (hq : req.files.lookup "questions" = some q)
    (ht : req.form.lookup "type" = none) :
    loadDocument jsonLoad pdfLoad search req = ⟨[], false, .badRequest⟩ := by
  unfold loadDocument
  rw [hc, hq, ht]

/-- Witness for the amended C10 at a concrete request without `type`. -/
theorem loadDocument_missing_type_badRequest_before_save_witness :
    loadDocument sampleJsonLoad samplePdfLoad sampleSearch reqNoType =
      ⟨[], false, .badRequest⟩ :=
  loadDocument_missing_type_badRequest_before_save sampleJsonLoad samplePdfLoad
    sampleSearch reqNoType ⟨"c.pdf", "PDFDATA"⟩ ⟨"qs.json", "[\"a?\"]"⟩
    rfl rfl rfl

/-- C6 counterexample: loading a file whose content is `[1, 2]` — valid
JSON that is not a list of strings — succeeds and returns the parsed
array unchanged, refuting the claim that such content fails with
`LoadError`. -/
theorem loadQuestions_accepts_non_string_list :
    loadQuestions "[1, 2]" = .ok (Json.arr [Json.num 1, Json.num 2]) ∧
    isStrList (Json.arr [Json.num 1, Json.num 2]) = false :=
  ⟨rfl, rfl⟩

/-- C6 as amended: loading a file containing `["a?", "b?"]` returns the
ordered list of the two question strings; loading a file that is not
valid JSON fails with `JSONDecodeError` (the spec's `LoadError`); but a
file whose content is valid JSON that is not a list of strings is
returned as parsed, without any error and without validation. -/
theorem loadQuestions_parses_without_validation :
    loadQuestions "[\"a?\", \"b?\"]" =
      .ok (Json.arr [Json.str "a?", Json.str "b?"]) ∧
    loadQuestions "not json" = .error .jsonDecodeError ∧
    loadQuestions "[1, 2]" = .ok (Json.arr [Json.num 1, Json.num 2]) :=
  ⟨rfl, rfl, rfl⟩

end QaApi
